import Mathlib

/-!
  Verification of the mockable-datetime calendar/time arithmetic engine.

  The `Timezone` component is embedded directly from
  `src/include/datetime/time/Timezone.h`, and the `Datetime` interface from
  `src/include/datetime/datetime/Datetime.h`.  The `Date` and `Time` classes
  and the implementation bodies of `Datetime` are not part of the provided
  sources, so those operations are modelled from the specification (each such
  definition's doc comment says so explicitly).
-/

namespace MockDT

/-- Error kinds of the library, as named by the specification (section 7):
invalid dates, invalid times, parse failures and unrecognized timezone
names. -/
inductive DTError where
  | InvalidDate
  | InvalidTime
  | ParseError
  | UnrecognizedTimezoneName
deriving DecidableEq, Repr

/-- Timezone: an immutable UTC-offset value, from
src/include/datetime/time/Timezone.h.  The field stores the difference in
hours between UTC's hour and this timezone's hour (so zones west of UTC have
a positive offset). -/
structure Timezone where
  utc_offset : Int
deriving DecidableEq, Repr

/-- Timezone::get_utc_offset_diff (Timezone.h, lines 47-50): the difference
in UTC offsets between this timezone and the other. -/
def Timezone.get_utc_offset_diff (t other : Timezone) : Int :=
  t.utc_offset - other.utc_offset

namespace TZ

/-- TZ::UTC (Timezone.h, line 84). -/
def UTC : Timezone := ⟨0⟩

/-- TZ::PST (Timezone.h, line 89). -/
def PST : Timezone := ⟨8⟩

/-- TZ::CST (Timezone.h, line 94). -/
def CST : Timezone := ⟨6⟩

/-- TZ::EST (Timezone.h, line 99). -/
def EST : Timezone := ⟨5⟩

/-- TZ::priv_helpers::get_from_str (Timezone.h, lines 112-123).  The C++
throw of std::invalid_argument is modelled as the
UnrecognizedTimezoneName error of the specification. -/
def get_from_str (timezone_string : String) : Except DTError Timezone :=
  if timezone_string = "Coordinated Universal Time" then .ok UTC
  else if timezone_string = "Pacific Standard Time" then .ok PST
  else if timezone_string = "Central Daylight Time" then .ok CST
  else if timezone_string = "Eastern Standard Time" then .ok EST
  else .error .UnrecognizedTimezoneName

end TZ

/-- Modelled from the spec: Date::leap_year (Date.h is not under the provided
sources).  Gregorian rule of spec sections 3 and 4.2: divisible by 4 and
(not divisible by 100 or divisible by 400). -/
def leap_year (year : Nat) : Bool :=
  year % 4 == 0 && (year % 100 != 0 || year % 400 == 0)

/-- Modelled from the spec: Date::days_in_month (Date.h is not under the
provided sources); spec section 4.2, February has 29 days in leap years
only. -/
def days_in_month (year month : Nat) : Nat :=
  if month = 1 then 31
  else if month = 2 then (if leap_year year then 29 else 28)
  else if month = 3 then 31
  else if month = 4 then 30
  else if month = 5 then 31
  else if month = 6 then 30
  else if month = 7 then 31
  else if month = 8 then 31
  else if month = 9 then 30
  else if month = 10 then 31
  else if month = 11 then 30
  else if month = 12 then 31
  else 0

/-- Date: a calendar date with year, month and day components (spec
section 3; Date.h is not under the provided sources). -/
structure Date where
  year : Nat
  month : Nat
  day : Nat
deriving DecidableEq, Repr

/-- The Date invariant of spec section 3: month 1-12, day bounded by the
month's length, and the year representable in the unsigned 16-bit field. -/
def Date.isValid (d : Date) : Prop :=
  1 ≤ d.month ∧ d.month ≤ 12 ∧ 1 ≤ d.day ∧ d.day ≤ days_in_month d.year d.month ∧
    d.year ≤ 65535

instance (d : Date) : Decidable d.isValid :=
  inferInstanceAs (Decidable (1 ≤ d.month ∧ d.month ≤ 12 ∧ 1 ≤ d.day ∧
    d.day ≤ days_in_month d.year d.month ∧ d.year ≤ 65535))

/-- Modelled from the spec: the validating Date constructor (spec
section 4.2), which fails with InvalidDate on an impossible triple and never
adjusts its inputs. -/
def mkDate (year month day : Nat) : Except DTError Date :=
  if Date.isValid ⟨year, month, day⟩ then .ok ⟨year, month, day⟩
  else .error .InvalidDate

/-- Date::EPOCH, the canonical reference date for timestamp conversion: the
UNIX epoch 1970-01-01 (spec sections 3 and 6). -/
def EPOCH : Date := ⟨1970, 1, 1⟩

/-- Modelled from the spec: Date::increment (spec section 4.2), adding
exactly one day and rolling month and year as needed. -/
def Date.increment (d : Date) : Date :=
  if d.day < days_in_month d.year d.month then ⟨d.year, d.month, d.day + 1⟩
  else if d.month < 12 then ⟨d.year, d.month + 1, 1⟩
  else ⟨d.year + 1, 1, 1⟩

/-- Modelled from the spec: Date::decrement (spec section 4.2), subtracting
exactly one day (January 1 rolls to December 31 of the previous year). -/
def Date.decrement (d : Date) : Date :=
  if 1 < d.day then ⟨d.year, d.month, d.day - 1⟩
  else if 1 < d.month then ⟨d.year, d.month - 1, days_in_month d.year (d.month - 1)⟩
  else ⟨d.year - 1, 12, 31⟩

/-- Forward day stepping used by Date::add_days: each step increments and
fails if the year field would overflow its unsigned 16-bit range (spec
section 4.4: overflow producing an invalid Date fails rather than
wrapping). -/
def Date.step_forward : Nat → Date → Option Date
  | 0, d => some d
  | k + 1, d =>
      let e := d.increment
      if 65535 < e.year then none else Date.step_forward k e

/-- Backward day stepping used by Date::add_days: each step decrements and
fails on year underflow below the representable range (spec section 4.4). -/
def Date.step_backward : Nat → Date → Option Date
  | 0, d => some d
  | k + 1, d =>
      if d.year = 0 ∧ d.month = 1 ∧ d.day = 1 then none
      else Date.step_backward k d.decrement

/-- Modelled from the spec: Date::add_days with a signed day count (spec
section 4.2), with full month and year renormalization and failure instead
of wrapping at the representable range. -/
def Date.add_days (d : Date) (n : Int) : Option Date :=
  if 0 ≤ n then Date.step_forward n.toNat d
  else Date.step_backward (-n).toNat d

/-- Time: a time of day down to nanoseconds plus a timezone (spec section 3;
Time.h is not under the provided sources). -/
structure Time where
  hour : Nat
  minute : Nat
  second : Nat
  millisecond : Nat
  microsecond : Nat
  nanosecond : Nat
  timezone : Timezone
deriving DecidableEq, Repr

/-- The Time invariant of spec section 3: every field stays within its
modulus. -/
def Time.isValid (t : Time) : Prop :=
  t.hour ≤ 23 ∧ t.minute ≤ 59 ∧ t.second ≤ 59 ∧ t.millisecond ≤ 999 ∧
    t.microsecond ≤ 999 ∧ t.nanosecond ≤ 999

instance (t : Time) : Decidable t.isValid :=
  inferInstanceAs (Decidable (t.hour ≤ 23 ∧ t.minute ≤ 59 ∧ t.second ≤ 59 ∧
    t.millisecond ≤ 999 ∧ t.microsecond ≤ 999 ∧ t.nanosecond ≤ 999))

/-- Modelled from the spec: the validating Time constructor (spec
section 4.3), which fails with InvalidTime when a field is out of its
modulus range and never adjusts its inputs. -/
def mkTime (hour minute second millisecond microsecond nanosecond : Nat)
    (timezone : Timezone) : Except DTError Time :=
  if Time.isValid ⟨hour, minute, second, millisecond, microsecond, nanosecond, timezone⟩
  then .ok ⟨hour, minute, second, millisecond, microsecond, nanosecond, timezone⟩
  else .error .InvalidTime

/-- Nanoseconds in a day. -/
def NANOSECONDS_PER_DAY : Nat := 86400000000000

/-- Nanoseconds in an hour. -/
def NANOSECONDS_PER_HOUR : Nat := 3600000000000

/-- Datetime::MILLISECONDS_PER_DAY (Datetime.h, line 574). -/
def MILLISECONDS_PER_DAY : Nat := 86400000

/-- Milliseconds in an hour, used for timezone re-basing of timestamps. -/
def MILLISECONDS_PER_HOUR : Nat := 3600000

/-- Modelled from the spec: Time::total_nanoseconds, the scalar
elapsed-since-midnight value in nanoseconds (spec section 4.3). -/
def Time.total_nanoseconds (t : Time) : Nat :=
  ((((t.hour * 60 + t.minute) * 60 + t.second) * 1000 + t.millisecond) * 1000 +
    t.microsecond) * 1000 + t.nanosecond

/-- Modelled from the spec: Time::total_milliseconds, the scalar
elapsed-since-midnight value in milliseconds (spec section 4.3). -/
def Time.total_milliseconds (t : Time) : Nat :=
  t.total_nanoseconds / 1000000

/-- Modelled from the spec: decomposition of an elapsed-nanoseconds-since-
midnight value back into Time fields (spec section 4.3: the composite
sub-second value is a single nanosecond-resolution fraction decomposed into
display fields). -/
def time_from_nanoseconds (n : Nat) (timezone : Timezone) : Time :=
  ⟨n / 1000 / 1000 / 1000 / 60 / 60, n / 1000 / 1000 / 1000 / 60 % 60,
    n / 1000 / 1000 / 1000 % 60, n / 1000 / 1000 % 1000, n / 1000 % 1000,
    n % 1000, timezone⟩

/-- Modelled from the spec: construction of a Time from a milliseconds-of-day
remainder during timestamp decomposition (spec section 4.4); sub-millisecond
fields are zero. -/
def time_from_milliseconds (m : Nat) (timezone : Timezone) : Time :=
  ⟨m / 1000 / 60 / 60, m / 1000 / 60 % 60, m / 1000 % 60, m % 1000, 0, 0, timezone⟩

/-- Modelled from the spec: the Time nanosecond add/subtract operation (spec
sections 4.3 and 4.4): carries through every sub-day unit and returns the
new time of day together with the signed number of whole days crossed. -/
def time_add_nanoseconds (t : Time) (delta : Int) : Time × Int :=
  let total : Int := (t.total_nanoseconds : Int) + delta
  let days : Int := Int.ediv total (NANOSECONDS_PER_DAY : Int)
  let rem : Int := Int.emod total (NANOSECONDS_PER_DAY : Int)
  (time_from_nanoseconds rem.toNat t.timezone, days)

/-- Datetime: the composition of one Date and one Time into a single instant
(src/include/datetime/datetime/Datetime.h; the C++ multiple inheritance is
re-expressed as composition, spec section 9). -/
structure Datetime where
  date : Date
  time : Time
deriving DecidableEq, Repr

/-- The Datetime invariant: the conjunction of the Date and Time invariants
(spec section 3). -/
def Datetime.isValid (dt : Datetime) : Prop :=
  dt.date.isValid ∧ dt.time.isValid

instance (dt : Datetime) : Decidable dt.isValid :=
  inferInstanceAs (Decidable (dt.date.isValid ∧ dt.time.isValid))

/-- The component Datetime constructor (Datetime.h, lines 49-55), with every
component given explicitly. -/
def mkDatetime (year month day hour minute second millisecond microsecond
    nanosecond : Nat) (timezone : Timezone) : Datetime :=
  ⟨⟨year, month, day⟩,
    ⟨hour, minute, second, millisecond, microsecond, nanosecond, timezone⟩⟩

/-- Modelled from the spec: the free operator adding Nanoseconds to a
Datetime (declared at Datetime.h lines 500-508; its body and the add_hours
body at lines 562-569 are not under the provided sources): the Time
operation produces the day carry, which is applied to the embedded Date
(spec section 4.4). -/
def Datetime.add_nanoseconds (dt : Datetime) (delta : Int) : Option Datetime :=
  let p := time_add_nanoseconds dt.time delta
  (dt.date.add_days p.2).map (fun d => ⟨d, p.1⟩)

/-- Zero padding of a numeric component to two digits, as used for the
month, day, minute and second fields of the canonical string forms. -/
def pad2 (n : Nat) : String :=
  if n < 10 then "0" ++ Nat.repr n else Nat.repr n

/-- Zero padding of the year component to four digits for the YYYY-MM-DD
date form. -/
def pad4 (n : Nat) : String :=
  if n < 10 then "000" ++ Nat.repr n
  else if n < 100 then "00" ++ Nat.repr n
  else if n < 1000 then "0" ++ Nat.repr n
  else Nat.repr n

/-- Modelled from the spec: Date::to_string, fixed format YYYY-MM-DD with
zero-padded components (spec section 4.2; Date.h is not under the provided
sources). -/
def Date.to_string (d : Date) : String :=
  pad4 d.year ++ "-" ++ pad2 d.month ++ "-" ++ pad2 d.day

/-- Modelled from the documented contract of Datetime::to_string
(Datetime.h, lines 133-148) and spec section 4.3: the time part prints the
hour unpadded, the minute and second zero-padded to two digits, and the
sub-second fields unpadded, exactly as the documented example output
2000-01-02 3:04:05.6.7.8 shows.  Time.h itself is not under the provided
sources. -/
def Time.to_string (t : Time) (separate_time : Char) : String :=
  Nat.repr t.hour ++ String.singleton separate_time ++ pad2 t.minute ++
    String.singleton separate_time ++ pad2 t.second ++ "." ++
    Nat.repr t.millisecond ++ "." ++ Nat.repr t.microsecond ++ "." ++
    Nat.repr t.nanosecond

/-- Datetime::to_string (declared at Datetime.h line 148, documented at
lines 133-147): the Date string, the component separator (default space),
then the Time string. -/
def Datetime.to_string (dt : Datetime) (separate_components separate_time : Char) :
    String :=
  dt.date.to_string ++ String.singleton separate_components ++
    dt.time.to_string separate_time

/-- TimeDelta: a signed count per unit (spec section 3; TimeDelta's own
source is not under the provided sources, so it is modelled from the
spec). -/
structure TimeDelta where
  days : Int
  hours : Int
  minutes : Int
  seconds : Int
  milliseconds : Int
  microseconds : Int
  nanoseconds : Int
deriving DecidableEq, Repr

/-- The single normalized signed duration a TimeDelta denotes, in
nanoseconds (spec section 3). -/
def TimeDelta.total_nanoseconds (td : TimeDelta) : Int :=
  (((((td.days * 24 + td.hours) * 60 + td.minutes) * 60 + td.seconds) * 1000 +
    td.milliseconds) * 1000 + td.microseconds) * 1000 + td.nanoseconds

/-- The unit-wise negation of a TimeDelta, used to subtract a delta by
adding its negation. -/
def TimeDelta.neg (td : TimeDelta) : TimeDelta :=
  ⟨-td.days, -td.hours, -td.minutes, -td.seconds, -td.milliseconds,
    -td.microseconds, -td.nanoseconds⟩

/-- Modelled from the spec: decomposition of a signed nanosecond duration
into the per-unit fields of a TimeDelta (spec section 3: a normalized signed
duration decomposable into those units). -/
def TimeDelta.ofNanoseconds (n : Int) : TimeDelta :=
  let s : Int := if n < 0 then -1 else 1
  let a : Nat := n.natAbs
  ⟨s * (a / NANOSECONDS_PER_DAY), s * (a / NANOSECONDS_PER_HOUR % 24),
    s * (a / 60000000000 % 60), s * (a / 1000000000 % 60),
    s * (a / 1000000 % 1000), s * (a / 1000 % 1000), s * (a % 1000)⟩

/-- Modelled from the spec: the number of days that precede the given month
in the given year, the closed-form month part of the leap-aware day
arithmetic of spec section 4.4. -/
def days_before_month (year : Nat) : Nat → Nat
  | 0 => 0
  | m + 1 => days_before_month year m + days_in_month year m

/-- Modelled from the spec: the number of days in a calendar year, with
correct leap-year accounting (spec section 4.4). -/
def days_in_year (year : Nat) : Nat := days_before_month year 13

/-- Modelled from the spec: the number of leap years strictly before the
given year, counting from year 0 of the proleptic Gregorian calendar (year 0
itself is a leap year). -/
def leap_years_before (y : Nat) : Nat :=
  if y = 0 then 0 else (y - 1) / 4 - (y - 1) / 100 + (y - 1) / 400 + 1

/-- Modelled from the spec: the number of days in all calendar years before
the given one, counting from year 0 of the proleptic Gregorian calendar,
with correct leap-year accounting (spec section 4.4). -/
def days_before_year (y : Nat) : Nat :=
  365 * y + leap_years_before y

/-- Modelled from the spec: the absolute day index of a date, counting
0001-01... from year 0, month 1, day 1 as day 0.  This is the scalar side of
the days-since-epoch accounting of spec section 4.4. -/
def day_number (d : Date) : Nat :=
  days_before_year d.year + days_before_month d.year d.month + (d.day - 1)

/-- Modelled from the spec: the month-and-day phase of converting a
within-year day count back into a calendar date.  The fuel argument bounds
the number of month steps at 12. -/
def month_of_days (year : Nat) : Nat → Nat → Nat → Date
  | 0, m, n => ⟨year, m, n + 1⟩
  | fuel + 1, m, n =>
      if days_in_month year m ≤ n then
        month_of_days year fuel (m + 1) (n - days_in_month year m)
      else ⟨year, m, n + 1⟩

/-- Modelled from the spec: the year phase of converting a day count into a
calendar date, peeling whole (leap-aware) years.  The fuel argument bounds
the number of year steps; callers pass enough fuel for the day count. -/
def year_days_loop : Nat → Nat → Nat → Date
  | 0, y, n => month_of_days y 12 1 n
  | fuel + 1, y, n =>
      if days_in_year y ≤ n then year_days_loop fuel (y + 1) (n - days_in_year y)
      else month_of_days y 12 1 n

/-- Modelled from the spec: conversion of an absolute day index into a
calendar date by closed-form day arithmetic (spec section 4.4). -/
def year_of_days (n : Nat) : Date :=
  year_days_loop (n / 365 + 1) 0 n

/-- The largest representable absolute day index: the day index of
65535-12-31, the last date whose year fits the unsigned 16-bit field. -/
def MAX_DAY_NUMBER : Nat := day_number ⟨65535, 12, 31⟩

/-- Modelled from the spec: conversion of an absolute day index into a
calendar date, failing when the year would overflow its representable range
instead of wrapping (spec section 4.4). -/
def date_from_day_number (n : Nat) : Option Date :=
  if n ≤ MAX_DAY_NUMBER then some (year_of_days n) else none

/-- The scalar local instant of a Datetime in nanoseconds: its absolute day
index scaled to nanoseconds plus its time of day.  Used by the TimeDelta
arithmetic of spec section 4.4. -/
def Datetime.local_instant (dt : Datetime) : Nat :=
  day_number dt.date * NANOSECONDS_PER_DAY + dt.time.total_nanoseconds

/-- The UTC-equivalent instant of a Datetime in nanoseconds: the local
instant shifted by the UTC offset (the stored offset is UTC minus local, so
UTC time is local time plus the offset).  Used by the timezone-aware
differencing of spec section 4.4. -/
def Datetime.utc_instant (dt : Datetime) : Int :=
  (dt.local_instant : Int) + dt.time.timezone.utc_offset * (NANOSECONDS_PER_HOUR : Int)

/-- Modelled from the spec: the free operator adding a TimeDelta to a
Datetime (declared at Datetime.h lines 236-244): every decomposed unit is
applied and the accumulated day carry moves the embedded Date, failing
instead of wrapping outside the representable range (spec sections 4.4
and 9, which collapses the per-unit operators into one normalization
routine). -/
def datetime_add_delta (dt : Datetime) (td : TimeDelta) : Option Datetime :=
  let i : Int := (dt.local_instant : Int) + td.total_nanoseconds
  if 0 ≤ i then
    match date_from_day_number (i.toNat / NANOSECONDS_PER_DAY) with
    | some d => some ⟨d, time_from_nanoseconds (i.toNat % NANOSECONDS_PER_DAY)
        dt.time.timezone⟩
    | none => none
  else none

/-- Modelled from the spec: the free operator subtracting a TimeDelta from a
Datetime (declared at Datetime.h lines 246-254): subtracting every unit is
adding the negated delta. -/
def datetime_sub_delta (dt : Datetime) (td : TimeDelta) : Option Datetime :=
  datetime_add_delta dt td.neg

/-- Modelled from the spec: the free operator subtracting two Datetimes into
a TimeDelta (declared at Datetime.h lines 530-538): both sides are expressed
as UTC-equivalent instants before subtracting, so each side's own timezone
is accounted for (spec section 4.4). -/
def datetime_sub (dt other : Datetime) : TimeDelta :=
  TimeDelta.ofNanoseconds (dt.utc_instant - other.utc_instant)

/-- The days-since-UNIX-epoch count of a date at or after the epoch. -/
def days_since_epoch (d : Date) : Nat :=
  day_number d - day_number EPOCH

/-- Modelled from the spec: Datetime::to_ms (declared at Datetime.h
lines 82-89): days since the epoch times milliseconds per day plus the time
of day in milliseconds, optionally re-based to another timezone by adding
the UTC-offset difference in hours converted to milliseconds (spec
section 4.4).  The unsigned C++ return type size_t is modelled as Nat. -/
def Datetime.to_ms (dt : Datetime) (timezone : Option Timezone) : Nat :=
  let base : Nat := days_since_epoch dt.date * MILLISECONDS_PER_DAY +
    dt.time.total_milliseconds
  match timezone with
  | none => base
  | some z => ((base : Int) +
      dt.time.timezone.get_utc_offset_diff z * (MILLISECONDS_PER_HOUR : Int)).toNat

/-- Modelled from the spec: Datetime::from_ms (declared at Datetime.h
lines 69-80): the unsigned millisecond UNIX timestamp (size_t, modelled as
Nat) is shifted by the UTC-offset difference between the source and
destination timezones, decomposed into whole days plus a remainder, the
days converted into a calendar date by day arithmetic from the epoch and
the remainder into the time of day (spec section 4.4). -/
def Datetime.from_ms (timestamp : Nat) (to_timezone from_timezone : Timezone) :
    Option Datetime :=
  let shifted : Int := (timestamp : Int) +
    from_timezone.get_utc_offset_diff to_timezone * (MILLISECONDS_PER_HOUR : Int)
  if 0 ≤ shifted then
    let n := shifted.toNat
    match date_from_day_number (day_number EPOCH + n / MILLISECONDS_PER_DAY) with
    | some d => some ⟨d, time_from_milliseconds (n % MILLISECONDS_PER_DAY) to_timezone⟩
    | none => none
  else none

/-- Modelled from the spec: the mathematically true signed UNIX-millisecond
value of an instant (negative before the epoch).  This is the value an
unbounded signed timestamp interface would return; it is needed to state
what the unsigned size_t interface of Datetime::to_ms and Datetime::from_ms
cannot represent. -/
def true_unix_ms (dt : Datetime) : Int :=
  ((day_number dt.date : Int) - (day_number EPOCH : Int)) * (MILLISECONDS_PER_DAY : Int) +
    (dt.time.total_milliseconds : Int)

/-! Arithmetic facts about the day-counting functions. -/

lemma days_before_month_succ (y m : Nat) :
    days_before_month y (m + 1) = days_before_month y m + days_in_month y m := rfl

lemma days_in_year_eq (y : Nat) : days_in_year y = if leap_year y then 366 else 365 := by
  have s : ∀ m : Nat, days_before_month y (m + 1) =
      days_before_month y m + days_in_month y m := fun _ => rfl
  have e1 : days_before_month y 13 = days_before_month y 12 + days_in_month y 12 := s 12
  have e2 : days_before_month y 12 = days_before_month y 11 + days_in_month y 11 := s 11
  have e3 : days_before_month y 11 = days_before_month y 10 + days_in_month y 10 := s 10
  have e4 : days_before_month y 10 = days_before_month y 9 + days_in_month y 9 := s 9
  have e5 : days_before_month y 9 = days_before_month y 8 + days_in_month y 8 := s 8
  have e6 : days_before_month y 8 = days_before_month y 7 + days_in_month y 7 := s 7
  have e7 : days_before_month y 7 = days_before_month y 6 + days_in_month y 6 := s 6
  have e8 : days_before_month y 6 = days_before_month y 5 + days_in_month y 5 := s 5
  have e9 : days_before_month y 5 = days_before_month y 4 + days_in_month y 4 := s 4
  have e10 : days_before_month y 4 = days_before_month y 3 + days_in_month y 3 := s 3
  have e11 : days_before_month y 3 = days_before_month y 2 + days_in_month y 2 := s 2
  have e12 : days_before_month y 2 = days_before_month y 1 + days_in_month y 1 := s 1
  have e13 : days_before_month y 1 = days_before_month y 0 + days_in_month y 0 := s 0
  have h0 : days_before_month y 0 = 0 := rfl
  have d0 : days_in_month y 0 = 0 := rfl
  have d1 : days_in_month y 1 = 31 := rfl
  have d3 : days_in_month y 3 = 31 := rfl
  have d4 : days_in_month y 4 = 30 := rfl
  have d5 : days_in_month y 5 = 31 := rfl
  have d6 : days_in_month y 6 = 30 := rfl
  have d7 : days_in_month y 7 = 31 := rfl
  have d8 : days_in_month y 8 = 31 := rfl
  have d9 : days_in_month y 9 = 30 := rfl
  have d10 : days_in_month y 10 = 31 := rfl
  have d11 : days_in_month y 11 = 30 := rfl
  have d12 : days_in_month y 12 = 31 := rfl
  have d2 : days_in_month y 2 = if leap_year y then 29 else 28 := rfl
  unfold days_in_year
  cases hl : leap_year y <;> simp [hl] at d2 ⊢ <;> omega

lemma days_in_year_pos (y : Nat) : 365 ≤ days_in_year y := by
  rw [days_in_year_eq]; split <;> omega

lemma days_before_year_succ (y : Nat) :
    days_before_year (y + 1) = days_before_year y + days_in_year y := by
  rw [days_in_year_eq]
  rcases Nat.eq_zero_or_pos y with hy | hy
  · subst hy; decide
  · have hL1 : leap_years_before (y + 1) = y / 4 - y / 100 + y / 400 + 1 := by
      unfold leap_years_before
      rw [if_neg (by omega : ¬(y + 1 = 0))]
      simp
    have hL0 : leap_years_before y = (y - 1) / 4 - (y - 1) / 100 + (y - 1) / 400 + 1 := by
      unfold leap_years_before
      rw [if_neg (by omega : ¬(y = 0))]
    unfold days_before_year
    rw [hL1, hL0]
    by_cases h4 : y % 4 = 0 <;> by_cases h100 : y % 100 = 0 <;>
      by_cases h400 : y % 400 = 0 <;>
      simp [leap_year, h4, h100, h400] <;> omega

lemma days_before_year_le {y1 y2 : Nat} (h : y1 ≤ y2) :
    days_before_year y1 ≤ days_before_year y2 := by
  induction y2 with
  | zero => have : y1 = 0 := by omega
            subst this; exact Nat.le_refl _
  | succ y ih =>
      rcases Nat.lt_succ_iff_lt_or_eq.mp (Nat.lt_succ_of_le h) with h2 | h2
      · have := ih (by omega)
        rw [days_before_year_succ]; omega
      · subst h2; exact Nat.le_refl _

lemma days_before_year_step_le {y1 y2 : Nat} (h : y1 < y2) :
    days_before_year y1 + days_in_year y1 ≤ days_before_year y2 := by
  have h1 : days_before_year (y1 + 1) ≤ days_before_year y2 := days_before_year_le h
  rw [days_before_year_succ] at h1; exact h1

lemma days_before_month_mono {y m1 m2 : Nat} (h : m1 ≤ m2) :
    days_before_month y m1 ≤ days_before_month y m2 := by
  induction m2 with
  | zero => have : m1 = 0 := by omega
            subst this; exact Nat.le_refl _
  | succ m ih =>
      rcases Nat.lt_succ_iff_lt_or_eq.mp (Nat.lt_succ_of_le h) with h2 | h2
      · have := ih (by omega)
        rw [days_before_month_succ]; omega
      · subst h2; exact Nat.le_refl _

lemma days_before_month_one (y : Nat) : days_before_month y 1 = 0 := rfl

lemma day_number_lt_next_year {d : Date} (h : d.isValid) :
    day_number d < days_before_year (d.year + 1) := by
  obtain ⟨hm1, hm2, hd1, hd2, _⟩ := h
  have s := days_before_month_succ d.year d.month
  have mo : days_before_month d.year (d.month + 1) ≤ days_before_month d.year 13 :=
    days_before_month_mono (by omega)
  have hy : days_in_year d.year = days_before_month d.year 13 := rfl
  rw [days_before_year_succ]
  unfold day_number
  omega

lemma day_number_le_max {d : Date} (h : d.isValid) : day_number d ≤ MAX_DAY_NUMBER := by
  have hmax : MAX_DAY_NUMBER =
      days_before_year 65535 + days_before_month 65535 12 + 30 := rfl
  obtain ⟨dy, dm, dd⟩ := d
  obtain ⟨hm1, hm2, hd1, hd2, hy⟩ := h
  simp only at hm1 hm2 hd1 hd2 hy
  rcases Nat.lt_or_ge dy 65535 with hlt | hge
  · have h1 : day_number ⟨dy, dm, dd⟩ < days_before_year (dy + 1) :=
      day_number_lt_next_year ⟨hm1, hm2, hd1, hd2, by dsimp only; omega⟩
    have h2 : days_before_year (dy + 1) ≤ days_before_year 65535 :=
      days_before_year_le (by omega)
    dsimp only [day_number] at h1 ⊢
    omega
  · have hy65 : dy = 65535 := by omega
    subst hy65
    rcases Nat.lt_or_ge dm 12 with hm | hm
    · have s := days_before_month_succ 65535 dm
      have mo : days_before_month 65535 (dm + 1) ≤ days_before_month 65535 12 :=
        days_before_month_mono (by omega)
      dsimp only [day_number]
      omega
    · have hm12 : dm = 12 := by omega
      subst hm12
      have d12 : days_in_month 65535 12 = 31 := rfl
      dsimp only [day_number]
      omega

lemma day_number_strict {d1 d2 : Date} (h1 : d1.isValid) (h2 : d2.isValid)
    (hlt : d1.year < d2.year ∨ (d1.year = d2.year ∧ (d1.month < d2.month ∨
      (d1.month = d2.month ∧ d1.day < d2.day)))) :
    day_number d1 < day_number d2 := by
  obtain ⟨ha1, ha2, ha3, ha4, ha5⟩ := h1
  obtain ⟨hb1, hb2, hb3, hb4, hb5⟩ := h2
  rcases hlt with hy | ⟨hy, hm | ⟨hm, hd⟩⟩
  · have s1 := day_number_lt_next_year (d := d1) ⟨ha1, ha2, ha3, ha4, ha5⟩
    have s2 : days_before_year (d1.year + 1) ≤ days_before_year d2.year :=
      days_before_year_le (by omega)
    unfold day_number at s1 ⊢
    omega
  · rw [hy] at ha4
    have s := days_before_month_succ d2.year d1.month
    have mo : days_before_month d2.year (d1.month + 1) ≤
        days_before_month d2.year d2.month := days_before_month_mono (by omega)
    unfold day_number
    rw [hy]
    omega
  · unfold day_number
    rw [hy, hm]
    omega

lemma day_number_inj {d1 d2 : Date} (h1 : d1.isValid) (h2 : d2.isValid)
    (h : day_number d1 = day_number d2) : d1 = d2 := by
  rcases Nat.lt_trichotomy d1.year d2.year with hy | hy | hy
  · exact absurd h (Nat.ne_of_lt (day_number_strict h1 h2 (Or.inl hy)))
  · rcases Nat.lt_trichotomy d1.month d2.month with hm | hm | hm
    · exact absurd h (Nat.ne_of_lt (day_number_strict h1 h2 (Or.inr ⟨hy, Or.inl hm⟩)))
    · rcases Nat.lt_trichotomy d1.day d2.day with hd | hd | hd
      · exact absurd h
          (Nat.ne_of_lt (day_number_strict h1 h2 (Or.inr ⟨hy, Or.inr ⟨hm, hd⟩⟩)))
      · obtain ⟨y1, m1, dd1⟩ := d1
        obtain ⟨y2, m2, dd2⟩ := d2
        simp only at hy hm hd
        rw [hy, hm, hd]
      · exact absurd h.symm
          (Nat.ne_of_lt (day_number_strict h2 h1 (Or.inr ⟨hy.symm, Or.inr ⟨hm.symm, hd⟩⟩)))
    · exact absurd h.symm
        (Nat.ne_of_lt (day_number_strict h2 h1 (Or.inr ⟨hy.symm, Or.inl hm⟩)))
  · exact absurd h.symm (Nat.ne_of_lt (day_number_strict h2 h1 (Or.inl hy)))

lemma month_of_days_spec (y : Nat) : ∀ fuel m n, 1 ≤ m →
    n + days_before_month y m < days_before_month y (m + fuel) →
    days_before_month y (month_of_days y fuel m n).month +
        ((month_of_days y fuel m n).day - 1) = days_before_month y m + n ∧
      1 ≤ (month_of_days y fuel m n).day ∧
      (month_of_days y fuel m n).day ≤
        days_in_month y (month_of_days y fuel m n).month ∧
      m ≤ (month_of_days y fuel m n).month ∧
      (month_of_days y fuel m n).month < m + fuel ∧
      (month_of_days y fuel m n).year = y := by
  intro fuel
  induction fuel with
  | zero =>
      intro m n _ h2
      rw [Nat.add_zero] at h2
      omega
  | succ fuel ih =>
      intro m n h1 h2
      rw [month_of_days]
      split
      case isTrue hle =>
        have s := days_before_month_succ y m
        have e : m + (fuel + 1) = (m + 1) + fuel := by omega
        rw [e] at h2
        have ihr := ih (m + 1) (n - days_in_month y m) (by omega) (by omega)
        obtain ⟨r1, r2, r3, r4, r5, r6⟩ := ihr
        exact ⟨by omega, r2, r3, by omega, by omega, r6⟩
      case isFalse hlt =>
        refine ⟨?_, ?_, ?_, ?_, ?_, rfl⟩ <;> dsimp only <;> omega

lemma year_days_loop_spec : ∀ fuel y n, n < 365 * fuel + days_in_year y →
    day_number (year_days_loop fuel y n) = days_before_year y + n ∧
      1 ≤ (year_days_loop fuel y n).month ∧ (year_days_loop fuel y n).month ≤ 12 ∧
      1 ≤ (year_days_loop fuel y n).day ∧
      (year_days_loop fuel y n).day ≤
        days_in_month (year_days_loop fuel y n).year (year_days_loop fuel y n).month ∧
      y ≤ (year_days_loop fuel y n).year ∧
      days_before_year (year_days_loop fuel y n).year ≤ days_before_year y + n := by
  have month_phase : ∀ y n, n < days_in_year y →
      day_number (month_of_days y 12 1 n) = days_before_year y + n ∧
        1 ≤ (month_of_days y 12 1 n).month ∧ (month_of_days y 12 1 n).month ≤ 12 ∧
        1 ≤ (month_of_days y 12 1 n).day ∧
        (month_of_days y 12 1 n).day ≤
          days_in_month (month_of_days y 12 1 n).year (month_of_days y 12 1 n).month ∧
        y ≤ (month_of_days y 12 1 n).year ∧
        days_before_year (month_of_days y 12 1 n).year ≤ days_before_year y + n := by
    intro y n hn
    have e13 : days_before_month y (1 + 12) = days_before_month y 13 := by norm_num
    have h1 : days_before_month y 1 = 0 := days_before_month_one y
    have hdy : days_in_year y = days_before_month y 13 := rfl
    have ms := month_of_days_spec y 12 1 n (Nat.le_refl 1) (by omega)
    obtain ⟨r1, r2, r3, r4, r5, r6⟩ := ms
    unfold day_number
    rw [r6]
    exact ⟨by omega, by omega, by omega, r2, r3, by omega, by omega⟩
  intro fuel
  induction fuel with
  | zero =>
      intro y n hn
      rw [year_days_loop]
      exact month_phase y n (by omega)
  | succ fuel ih =>
      intro y n hn
      rw [year_days_loop]
      split
      case isTrue hle =>
        have hp := days_in_year_pos (y + 1)
        have hs := days_before_year_succ y
        have ihr := ih (y + 1) (n - days_in_year y) (by omega)
        obtain ⟨r1, r2, r3, r4, r5, r6, r7⟩ := ihr
        exact ⟨by omega, r2, r3, r4, r5, by omega, by omega⟩
      case isFalse hlt =>
        exact month_phase y n (by omega)

lemma days_before_year_zero : days_before_year 0 = 0 := rfl

lemma year_of_days_spec (n : Nat) :
    day_number (year_of_days n) = n ∧ 1 ≤ (year_of_days n).month ∧
      (year_of_days n).month ≤ 12 ∧ 1 ≤ (year_of_days n).day ∧
      (year_of_days n).day ≤ days_in_month (year_of_days n).year (year_of_days n).month ∧
      days_before_year (year_of_days n).year ≤ n := by
  have hp := days_in_year_pos 0
  have h := year_days_loop_spec (n / 365 + 1) 0 n (by omega)
  rw [days_before_year_zero] at h
  unfold year_of_days
  obtain ⟨r1, r2, r3, r4, r5, _, r7⟩ := h
  exact ⟨by omega, r2, r3, r4, r5, by omega⟩

lemma max_day_number_lt : MAX_DAY_NUMBER < days_before_year 65536 := by decide

lemma date_from_day_number_spec (n : Nat) (h : n ≤ MAX_DAY_NUMBER) :
    date_from_day_number n = some (year_of_days n) ∧ day_number (year_of_days n) = n ∧
      (year_of_days n).isValid := by
  obtain ⟨r1, r2, r3, r4, r5, r7⟩ := year_of_days_spec n
  refine ⟨by unfold date_from_day_number; rw [if_pos h], r1, r2, r3, r4, r5, ?_⟩
  by_contra hy
  have : days_before_year 65536 ≤ days_before_year (year_of_days n).year :=
    days_before_year_le (by omega)
  have := max_day_number_lt
  omega

lemma date_from_day_number_of_valid {d : Date} (h : d.isValid) :
    date_from_day_number (day_number d) = some d := by
  obtain ⟨he, hdn, hval⟩ := date_from_day_number_spec (day_number d) (day_number_le_max h)
  rw [he, day_number_inj hval h hdn]

/-! Facts about the Time scalar conversions. -/

lemma total_nanoseconds_time_from (n : Nat) (tz : Timezone) :
    (time_from_nanoseconds n tz).total_nanoseconds = n := by
  dsimp only [time_from_nanoseconds, Time.total_nanoseconds]
  omega

lemma timezone_time_from (n : Nat) (tz : Timezone) :
    (time_from_nanoseconds n tz).timezone = tz := rfl

lemma time_from_total {t : Time} (h : t.isValid) :
    time_from_nanoseconds t.total_nanoseconds t.timezone = t := by
  obtain ⟨hh, mi, s, ms, us, ns, tz⟩ := t
  obtain ⟨h1, h2, h3, h4, h5, h6⟩ := h
  simp only at h1 h2 h3 h4 h5 h6
  dsimp only [time_from_nanoseconds, Time.total_nanoseconds]
  simp only [Time.mk.injEq]
  refine ⟨?_, ?_, ?_, ?_, ?_, ?_, trivial⟩ <;> omega

lemma total_nanoseconds_lt {t : Time} (h : t.isValid) :
    t.total_nanoseconds < NANOSECONDS_PER_DAY := by
  obtain ⟨h1, h2, h3, h4, h5, h6⟩ := h
  dsimp only [Time.total_nanoseconds, NANOSECONDS_PER_DAY]
  omega

lemma total_milliseconds_lt {t : Time} (h : t.isValid) :
    t.total_milliseconds < MILLISECONDS_PER_DAY := by
  obtain ⟨h1, h2, h3, h4, h5, h6⟩ := h
  dsimp only [Time.total_milliseconds, Time.total_nanoseconds, MILLISECONDS_PER_DAY]
  omega

lemma time_from_ms_total {t : Time} (h : t.isValid) (tz : Timezone) :
    time_from_milliseconds t.total_milliseconds tz =
      ⟨t.hour, t.minute, t.second, t.millisecond, 0, 0, tz⟩ := by
  obtain ⟨hh, mi, s, ms, us, ns, tz0⟩ := t
  obtain ⟨h1, h2, h3, h4, h5, h6⟩ := h
  simp only at h1 h2 h3 h4 h5 h6
  dsimp only [time_from_milliseconds, Time.total_milliseconds, Time.total_nanoseconds]
  simp only [Time.mk.injEq]
  refine ⟨?_, ?_, ?_, ?_, trivial, trivial, trivial⟩ <;> omega

lemma total_nanoseconds_neg (td : TimeDelta) :
    td.neg.total_nanoseconds = -td.total_nanoseconds := by
  dsimp only [TimeDelta.neg, TimeDelta.total_nanoseconds]
  ring

lemma date_from_day_number_inv {n : Nat} {d : Date}
    (h : date_from_day_number n = some d) :
    n ≤ MAX_DAY_NUMBER ∧ day_number d = n ∧ d.isValid := by
  unfold date_from_day_number at h
  split at h
  case isTrue hle =>
    obtain ⟨_, h2, h3⟩ := date_from_day_number_spec n hle
    injection h with h
    subst h
    exact ⟨hle, h2, h3⟩
  case isFalse => cases h

/-! The claim theorems. -/

/-- Claim C1, counterexample: Timezone::get_utc_offset_diff computes
this minus other, so PST (offset 8) differenced against CST (offset 6)
yields 2, not -2 as the claim states. -/
theorem utc_offset_diff_pst_cst_cex :
    TZ.PST.get_utc_offset_diff TZ.CST = 2 ∧
      TZ.PST.get_utc_offset_diff TZ.CST ≠ -2 := by
  decide

/-- Claim C1, amended: Timezone::get_utc_offset_diff(other) returns
this.utc_offset minus other.utc_offset for every pair of Timezones, and
under this rule PST (offset 8) differenced against CST (offset 6) yields
2. -/
theorem utc_offset_diff_amended :
    (∀ a b : Timezone, a.get_utc_offset_diff b = a.utc_offset - b.utc_offset) ∧
      TZ.PST.get_utc_offset_diff TZ.CST = 2 :=
  ⟨fun _ _ => rfl, by decide⟩

/-- Claim C1, witness: the subtraction rule evaluated at the UTC and EST
constants. -/
theorem utc_offset_diff_amended_witness :
    TZ.UTC.get_utc_offset_diff TZ.EST = TZ.UTC.utc_offset - TZ.EST.utc_offset :=
  utc_offset_diff_amended.1 TZ.UTC TZ.EST

/-- Claim C2, counterexample: to_string prints the documented example
Datetime(2000,1,2,3,4,5,6,7,8) with unpadded sub-second fields, not with
the three-digit zero-padded sub-second fields the claim states. -/
theorem to_string_subsecond_padding_cex :
    Datetime.to_string (mkDatetime 2000 1 2 3 4 5 6 7 8 TZ.UTC) ' ' ':' =
        "2000-01-02 3:04:05.6.7.8" ∧
      Datetime.to_string (mkDatetime 2000 1 2 3 4 5 6 7 8 TZ.UTC) ' ' ':' ≠
        "2000-01-02 3:04:05.006.007.008" := by
  decide

/-- Claim C2, amended: to_string with default separators produces the
zero-padded YYYY-MM-DD date, a space, then the time with the hour unpadded,
minute and second zero-padded to two digits, and the millisecond,
microsecond and nanosecond fields printed unpadded; in particular
Datetime(2000,1,2,3,4,5,6,7,8) prints as 2000-01-02 3:04:05.6.7.8. -/
theorem to_string_format_amended :
    (∀ dt : Datetime, dt.to_string ' ' ':' =
      (pad4 dt.date.year ++ "-" ++ pad2 dt.date.month ++ "-" ++ pad2 dt.date.day) ++
        " " ++
      (Nat.repr dt.time.hour ++ ":" ++ pad2 dt.time.minute ++ ":" ++
        pad2 dt.time.second ++ "." ++ Nat.repr dt.time.millisecond ++ "." ++
        Nat.repr dt.time.microsecond ++ "." ++ Nat.repr dt.time.nanosecond)) ∧
    Datetime.to_string (mkDatetime 2000 1 2 3 4 5 6 7 8 TZ.UTC) ' ' ':' =
      "2000-01-02 3:04:05.6.7.8" ∧
    Datetime.to_string (mkDatetime 2023 11 9 7 8 9 10 20 30 TZ.UTC) ' ' ':' =
      "2023-11-09 7:08:09.10.20.30" := by
  refine ⟨fun dt => ?_, by decide, by decide⟩
  have hsp : String.singleton ' ' = " " := by decide
  have hco : String.singleton ':' = ":" := by decide
  dsimp only [Datetime.to_string, Date.to_string, Time.to_string]
  rw [hsp, hco]

/-- Claim C2, witness: the amended format statement evaluated at a concrete
datetime. -/
theorem to_string_format_amended_witness :
    (mkDatetime 1999 12 31 23 58 59 1 2 3 TZ.UTC).to_string ' ' ':' =
      (pad4 1999 ++ "-" ++ pad2 12 ++ "-" ++ pad2 31) ++ " " ++
      (Nat.repr 23 ++ ":" ++ pad2 58 ++ ":" ++ pad2 59 ++ "." ++ Nat.repr 1 ++
        "." ++ Nat.repr 2 ++ "." ++ Nat.repr 3) :=
  to_string_format_amended.1 (mkDatetime 1999 12 31 23 58 59 1 2 3 TZ.UTC)

/-- Claim C3: adding one nanosecond to a Time at 23:59:59.999.999.999
carries exactly one day forward with the time of day wrapping to
0:00:00.000.000.000, and through Datetime the carry moves the date:
Datetime(2023,12,31,23,59,59,999,999,999) plus one nanosecond equals
Datetime(2024,1,1,0,0,0,0,0,0). -/
theorem nanosecond_day_carry :
    ∀ tz : Timezone,
      time_add_nanoseconds ⟨23, 59, 59, 999, 999, 999, tz⟩ 1 =
        (⟨0, 0, 0, 0, 0, 0, tz⟩, 1) ∧
      Datetime.add_nanoseconds (mkDatetime 2023 12 31 23 59 59 999 999 999 tz) 1 =
        some (mkDatetime 2024 1 1 0 0 0 0 0 0 tz) := by
  intro tz
  constructor
  · norm_num [time_add_nanoseconds, Time.total_nanoseconds, NANOSECONDS_PER_DAY,
      time_from_nanoseconds]
  · norm_num [Datetime.add_nanoseconds, time_add_nanoseconds, Time.total_nanoseconds,
      NANOSECONDS_PER_DAY, time_from_nanoseconds, mkDatetime, Date.add_days,
      Date.step_forward, Date.increment, days_in_month, leap_year]

/-- Claim C3, witness: the day carry evaluated in the UTC timezone. -/
theorem nanosecond_day_carry_witness :
    time_add_nanoseconds ⟨23, 59, 59, 999, 999, 999, TZ.UTC⟩ 1 =
        (⟨0, 0, 0, 0, 0, 0, TZ.UTC⟩, 1) ∧
      Datetime.add_nanoseconds (mkDatetime 2023 12 31 23 59 59 999 999 999 TZ.UTC) 1 =
        some (mkDatetime 2024 1 1 0 0 0 0 0 0 TZ.UTC) :=
  nanosecond_day_carry TZ.UTC

/-- Claim C4: for a valid Datetime at or after the UNIX epoch (the domain
the unsigned millisecond timestamp interface can represent), converting to
a millisecond timestamp in its own timezone and back is the identity up to
sub-millisecond truncation: only the microsecond and nanosecond fields are
lost. -/
theorem from_ms_to_ms_round_trip (dt : Datetime) (h : dt.isValid)
    (hE : day_number EPOCH ≤ day_number dt.date) :
    Datetime.from_ms (dt.to_ms (some dt.time.timezone)) dt.time.timezone
        dt.time.timezone =
      some ⟨dt.date, ⟨dt.time.hour, dt.time.minute, dt.time.second,
        dt.time.millisecond, 0, 0, dt.time.timezone⟩⟩ := by
  obtain ⟨hd, ht⟩ := h
  have hdiff : dt.time.timezone.get_utc_offset_diff dt.time.timezone = 0 := by
    simp [Timezone.get_utc_offset_diff]
  have hto : dt.to_ms (some dt.time.timezone) =
      days_since_epoch dt.date * MILLISECONDS_PER_DAY + dt.time.total_milliseconds := by
    dsimp only [Datetime.to_ms]
    rw [hdiff]
    omega
  rw [hto]
  dsimp only [Datetime.from_ms]
  rw [hdiff]
  simp only [zero_mul, add_zero]
  rw [if_pos (Int.natCast_nonneg _)]
  have hlt := total_milliseconds_lt ht
  have htoNat : ((days_since_epoch dt.date * MILLISECONDS_PER_DAY +
      dt.time.total_milliseconds : Nat) : Int).toNat =
      days_since_epoch dt.date * MILLISECONDS_PER_DAY + dt.time.total_milliseconds := by
    omega
  rw [htoNat]
  have hdiv : (days_since_epoch dt.date * MILLISECONDS_PER_DAY +
      dt.time.total_milliseconds) / MILLISECONDS_PER_DAY = days_since_epoch dt.date := by
    dsimp only [MILLISECONDS_PER_DAY] at hlt ⊢
    omega
  have hmod : (days_since_epoch dt.date * MILLISECONDS_PER_DAY +
      dt.time.total_milliseconds) % MILLISECONDS_PER_DAY =
      dt.time.total_milliseconds := by
    dsimp only [MILLISECONDS_PER_DAY] at hlt ⊢
    omega
  rw [hdiv, hmod]
  have hE2 : day_number EPOCH + days_since_epoch dt.date = day_number dt.date := by
    dsimp only [days_since_epoch]
    omega
  rw [hE2, date_from_day_number_of_valid hd]
  rw [time_from_ms_total ht]

set_option maxRecDepth 100000 in
/-- Claim C4, witness: the millisecond round trip evaluated at a concrete
datetime one day after the epoch. -/
theorem from_ms_to_ms_round_trip_witness :
    Datetime.from_ms (Datetime.to_ms (mkDatetime 1970 1 2 3 4 5 6 7 8 TZ.UTC)
        (some TZ.UTC)) TZ.UTC TZ.UTC =
      some (mkDatetime 1970 1 2 3 4 5 6 0 0 TZ.UTC) :=
  from_ms_to_ms_round_trip (mkDatetime 1970 1 2 3 4 5 6 7 8 TZ.UTC) (by decide)
    (by decide)

/-- Claim C5: subtracting two Datetimes accounts for each side's timezone:
12:00 in UTC minus 12:00 in the zone five hours east of UTC (local time is
UTC plus five hours, so the stored offset, UTC minus local, is -5) is a
nonzero TimeDelta of exactly five hours, although every local field is
equal. -/
theorem datetime_sub_timezone_aware :
    datetime_sub (mkDatetime 2023 1 1 12 0 0 0 0 0 TZ.UTC)
        (mkDatetime 2023 1 1 12 0 0 0 0 0 ⟨-5⟩) = ⟨0, 5, 0, 0, 0, 0, 0⟩ ∧
      (datetime_sub (mkDatetime 2023 1 1 12 0 0 0 0 0 TZ.UTC)
        (mkDatetime 2023 1 1 12 0 0 0 0 0 ⟨-5⟩)).total_nanoseconds =
        5 * (NANOSECONDS_PER_HOUR : Int) ∧
      datetime_sub (mkDatetime 2023 1 1 12 0 0 0 0 0 TZ.UTC)
        (mkDatetime 2023 1 1 12 0 0 0 0 0 ⟨-5⟩) ≠ ⟨0, 0, 0, 0, 0, 0, 0⟩ := by
  decide

/-- Claim C5, witness: the five-hour difference itself. -/
theorem datetime_sub_timezone_aware_witness :
    datetime_sub (mkDatetime 2023 1 1 12 0 0 0 0 0 TZ.UTC)
        (mkDatetime 2023 1 1 12 0 0 0 0 0 ⟨-5⟩) = ⟨0, 5, 0, 0, 0, 0, 0⟩ :=
  datetime_sub_timezone_aware.1

/-- Claim C6: for every valid Datetime and every TimeDelta, when adding the
delta succeeds (stays in the representable range), subtracting the same
delta from the result returns the original Datetime. -/
theorem add_sub_time_delta_round_trip (dt : Datetime) (td : TimeDelta)
    (h : dt.isValid) (e : Datetime) (he : datetime_add_delta dt td = some e) :
    datetime_sub_delta e td = some dt := by
  obtain ⟨hd, ht⟩ := h
  dsimp only [datetime_add_delta] at he
  by_cases h0 : (0:Int) ≤ (dt.local_instant : Int) + td.total_nanoseconds
  case neg =>
    rw [if_neg h0] at he
    cases he
  rw [if_pos h0] at he
  cases hq : date_from_day_number
      (((dt.local_instant : Int) + td.total_nanoseconds).toNat /
        NANOSECONDS_PER_DAY) with
  | none => rw [hq] at he; cases he
  | some d2 =>
    rw [hq] at he
    injection he with he2
    obtain ⟨hle, hdn, hval⟩ := date_from_day_number_inv hq
    subst he2
    have hli : (⟨d2, time_from_nanoseconds
        (((dt.local_instant : Int) + td.total_nanoseconds).toNat %
          NANOSECONDS_PER_DAY) dt.time.timezone⟩ : Datetime).local_instant =
        ((dt.local_instant : Int) + td.total_nanoseconds).toNat := by
      dsimp only [Datetime.local_instant]
      rw [hdn, total_nanoseconds_time_from]
      dsimp only [Datetime.local_instant, NANOSECONDS_PER_DAY]
      omega
    dsimp only [datetime_sub_delta, datetime_add_delta]
    rw [hli, total_nanoseconds_neg]
    have hi2 : ((((dt.local_instant : Int) + td.total_nanoseconds).toNat : Int) +
        -td.total_nanoseconds) = (dt.local_instant : Int) := by
      have hc : ((((dt.local_instant : Int) + td.total_nanoseconds).toNat : Int)) =
          (dt.local_instant : Int) + td.total_nanoseconds := Int.toNat_of_nonneg h0
      rw [hc]; ring
    rw [hi2]
    rw [if_pos (Int.natCast_nonneg _)]
    have htoN : ((dt.local_instant : Int)).toNat = dt.local_instant := by omega
    rw [htoN]
    have hlt := total_nanoseconds_lt ht
    have hdiv : dt.local_instant / NANOSECONDS_PER_DAY = day_number dt.date := by
      dsimp only [Datetime.local_instant, NANOSECONDS_PER_DAY] at hlt ⊢
      omega
    have hmod : dt.local_instant % NANOSECONDS_PER_DAY =
        dt.time.total_nanoseconds := by
      dsimp only [Datetime.local_instant, NANOSECONDS_PER_DAY] at hlt ⊢
      omega
    rw [hdiv, hmod, date_from_day_number_of_valid hd]
    rw [timezone_time_from, time_from_total ht]

set_option maxRecDepth 100000 in
/-- Claim C6, witness: the round trip evaluated at a concrete Datetime and
TimeDelta whose addition succeeds. -/
theorem add_sub_time_delta_round_trip_witness :
    datetime_sub_delta ⟨⟨0, 1, 6⟩, ⟨3, 5, 7, 9, 11, 13, TZ.UTC⟩⟩
        ⟨1, 2, 3, 4, 5, 6, 7⟩ =
      some ⟨⟨0, 1, 5⟩, ⟨1, 2, 3, 4, 5, 6, TZ.UTC⟩⟩ :=
  add_sub_time_delta_round_trip ⟨⟨0, 1, 5⟩, ⟨1, 2, 3, 4, 5, 6, TZ.UTC⟩⟩
    ⟨1, 2, 3, 4, 5, 6, 7⟩ (by decide) ⟨⟨0, 1, 6⟩, ⟨3, 5, 7, 9, 11, 13, TZ.UTC⟩⟩
    (by decide)

/-- Claim C7: Date::leap_year holds exactly when the year is divisible by 4
and either not divisible by 100 or divisible by 400; in particular 2000 and
2024 are leap years while 1900 and 2023 are not. -/
theorem leap_year_rule :
    (∀ y : Nat, leap_year y = true ↔ (y % 4 = 0 ∧ (y % 100 ≠ 0 ∨ y % 400 = 0))) ∧
      leap_year 2000 = true ∧ leap_year 1900 = false ∧ leap_year 2024 = true ∧
      leap_year 2023 = false := by
  refine ⟨fun y => ?_, by decide, by decide, by decide, by decide⟩
  simp [leap_year]

/-- Claim C7, witness: the leap rule evaluated at the year 2028. -/
theorem leap_year_rule_witness :
    leap_year 2028 = true ↔ (2028 % 4 = 0 ∧ (2028 % 100 ≠ 0 ∨ 2028 % 400 = 0)) :=
  leap_year_rule.1 2028

/-- Claim C8: constructing a value from impossible components fails at
construction time with the named error and is never clamped or wrapped:
Date(2023,2,29) fails with InvalidDate, Time(24,0,0) fails with InvalidTime,
and every successful construction returns exactly the requested components,
which then satisfy the invariant. -/
theorem invalid_construction_fails :
    mkDate 2023 2 29 = .error .InvalidDate ∧
      (∀ tz : Timezone, mkTime 24 0 0 0 0 0 tz = .error .InvalidTime) ∧
      (∀ y m d dd, mkDate y m d = .ok dd → dd = ⟨y, m, d⟩ ∧ dd.isValid) ∧
      (∀ h mi s ms us ns tz t, mkTime h mi s ms us ns tz = .ok t →
        t = ⟨h, mi, s, ms, us, ns, tz⟩ ∧ t.isValid) := by
  refine ⟨rfl, ?_, ?_, ?_⟩
  · intro tz
    have hnv : ¬ Time.isValid ⟨24, 0, 0, 0, 0, 0, tz⟩ := by
      intro hx
      obtain ⟨h1, _⟩ := hx
      dsimp only at h1
      omega
    unfold mkTime
    rw [if_neg hnv]
  · intro y m d dd hok
    unfold mkDate at hok
    split at hok
    case isTrue hv =>
      injection hok with hok
      exact ⟨hok.symm, hok ▸ hv⟩
    case isFalse => cases hok
  · intro h mi s ms us ns tz t hok
    unfold mkTime at hok
    split at hok
    case isTrue hv =>
      injection hok with hok
      exact ⟨hok.symm, hok ▸ hv⟩
    case isFalse => cases hok

/-- Claim C8, witness: a valid construction returns exactly its requested
components. -/
theorem invalid_construction_fails_witness :
    (⟨2020, 2, 29⟩ : Date) = ⟨2020, 2, 29⟩ ∧ Date.isValid ⟨2020, 2, 29⟩ :=
  invalid_construction_fails.2.2.1 2020 2 29 ⟨2020, 2, 29⟩ rfl

/-- Claim C9: the timestamp interface is unsigned (size_t in the C++
declarations of Datetime::from_ms and Datetime::to_ms, modelled as Nat), so
for every valid Datetime before the UNIX epoch the true signed millisecond
value is negative and cannot be the value of to_ms, and no such instant can
be passed to from_ms. -/
theorem unsigned_timestamp_interface (dt : Datetime) (h : dt.isValid)
    (hpre : day_number dt.date < day_number EPOCH) :
    true_unix_ms dt < 0 ∧ (Datetime.to_ms dt none : Int) ≠ true_unix_ms dt := by
  have hms := total_milliseconds_lt h.2
  have hneg : true_unix_ms dt < 0 := by
    dsimp only [true_unix_ms, MILLISECONDS_PER_DAY]
    dsimp only [MILLISECONDS_PER_DAY] at hms
    omega
  refine ⟨hneg, fun hc => ?_⟩
  have h0 : (0:Int) ≤ ((dt.to_ms none : Nat) : Int) := Int.natCast_nonneg _
  omega

/-- Claim C9, witness: a valid datetime one day before the epoch. -/
theorem unsigned_timestamp_interface_witness :
    true_unix_ms ⟨⟨1969, 12, 31⟩, ⟨0, 0, 0, 0, 0, 0, TZ.UTC⟩⟩ < 0 ∧
      (Datetime.to_ms ⟨⟨1969, 12, 31⟩, ⟨0, 0, 0, 0, 0, 0, TZ.UTC⟩⟩ none : Int) ≠
        true_unix_ms ⟨⟨1969, 12, 31⟩, ⟨0, 0, 0, 0, 0, 0, TZ.UTC⟩⟩ :=
  unsigned_timestamp_interface ⟨⟨1969, 12, 31⟩, ⟨0, 0, 0, 0, 0, 0, TZ.UTC⟩⟩
    (by decide) (by decide)

/-- Claim C10: TZ::priv_helpers::get_from_str maps exactly four strings to
constants and fails with the unrecognized-timezone error on every other
input, in particular on the string Central Standard Time, even though a CST
constant exists (the recognized central-zone string is Central Daylight
Time). -/
theorem get_from_str_exact :
    TZ.get_from_str "Coordinated Universal Time" = .ok TZ.UTC ∧
      TZ.get_from_str "Pacific Standard Time" = .ok TZ.PST ∧
      TZ.get_from_str "Central Daylight Time" = .ok TZ.CST ∧
      TZ.get_from_str "Eastern Standard Time" = .ok TZ.EST ∧
      TZ.get_from_str "Central Standard Time" = .error .UnrecognizedTimezoneName ∧
      (∀ s : String, s ≠ "Coordinated Universal Time" →
        s ≠ "Pacific Standard Time" → s ≠ "Central Daylight Time" →
        s ≠ "Eastern Standard Time" →
        TZ.get_from_str s = .error .UnrecognizedTimezoneName) := by
  refine ⟨rfl, rfl, rfl, rfl, rfl, ?_⟩
  intro s h1 h2 h3 h4
  unfold TZ.get_from_str
  rw [if_neg h1, if_neg h2, if_neg h3, if_neg h4]

/-- Claim C10, witness: an unrecognized name fails. -/
theorem get_from_str_exact_witness :
    TZ.get_from_str "Mountain Standard Time" = .error .UnrecognizedTimezoneName :=
  get_from_str_exact.2.2.2.2.2 "Mountain Standard Time" (by decide) (by decide)
    (by decide) (by decide)

end MockDT
